import Mathlib

/-
Verification of the deep-space telemetry relay (src/edge_processing.py,
src/receiver.py) against its natural-language specification.

Modelling conventions:
- Python floats are embedded as rationals where NaN never matters; for the
  checksum (which the spec discusses for NaN inputs) floats are embedded as
  an explicit NaN-or-rational type with NaN-propagating addition.
- Calls to math.sqrt appear only in comparisons sqrt e > c with e a sum of
  squares and c a positive constant; they are embedded as e > c^2, which is
  equivalent over the reals.
- Randomness (random.random draws, Gaussian noise samples) and remote-call
  outcomes are passed in as oracle arguments, so theorems quantify over all
  possible draws.
- Wall-clock time (time.time()) is passed in as a rational parameter per call.
- Python dictionaries keyed by spacecraft id are embedded as association
  lists with first-match lookup and in-place overwrite.
-/

namespace DeepSpaceSim

/-! ### Python float values with NaN (receiver.py checksum) -/

/-- A Python float value: either NaN or a finite value (embedded as rational). -/
inductive PyFloat where
  | nan : PyFloat
  | val : ℚ → PyFloat
deriving DecidableEq

/-- Addition of Python floats: NaN propagates through +. -/
def PyFloat.add : PyFloat → PyFloat → PyFloat
  | .nan, _ => .nan
  | _, .nan => .nan
  | .val a, .val b => .val (a + b)

/-- math.isnan. -/
def PyFloat.isnan : PyFloat → Bool
  | .nan => true
  | .val _ => false

/-- Python builtin sum over floats, starting from 0. -/
def pySum (l : List PyFloat) : PyFloat := l.foldl PyFloat.add (.val 0)

/-- A Python value as it appears in the expression
`math.isnan(v) and 0 or v` of receiver.py: a bool, an int, or a float. -/
inductive PyVal where
  | b : Bool → PyVal
  | i : ℤ → PyVal
  | f : PyFloat → PyVal
deriving DecidableEq

/-- Python truthiness: False, 0 and 0.0 are falsy; NaN is truthy. -/
def PyVal.truthy : PyVal → Bool
  | .b x => x
  | .i n => n ≠ 0
  | .f .nan => true
  | .f (.val q) => q ≠ 0

/-- Python `x and y`: returns y if x is truthy, else x. -/
def pyAnd (x y : PyVal) : PyVal := if x.truthy then y else x

/-- Python `x or y`: returns x if x is truthy, else y. -/
def pyOr (x y : PyVal) : PyVal := if x.truthy then x else y

/-- The per-field expression `math.isnan(v) and 0 or v` from
receiver.py line 107. -/
def nanGuard (v : PyFloat) : PyVal := pyOr (pyAnd (.b v.isnan) (.i 0)) (.f v)

/-- Coercion of a Python value to float, as done by float addition inside sum. -/
def PyVal.toFloat : PyVal → PyFloat
  | .b x => .val (if x then 1 else 0)
  | .i n => .val (n : ℚ)
  | .f x => x

/-- The seven core numeric fields of a telemetry report, as floats that can
be NaN (positions x/y/z, velocities x/y/z, temperature). -/
structure FloatTelemetry where
  position_x : PyFloat
  position_y : PyFloat
  position_z : PyFloat
  velocity_x : PyFloat
  velocity_y : PyFloat
  velocity_z : PyFloat
  temperature : PyFloat
deriving DecidableEq

/-- ReceiverService._calculate_checksum (receiver.py lines 101-107):
`sum(math.isnan(v) and 0 or v for v in vals)` over the seven core fields. -/
def calculate_checksum (r : FloatTelemetry) : PyFloat :=
  pySum ([r.position_x, r.position_y, r.position_z,
          r.velocity_x, r.velocity_y, r.velocity_z,
          r.temperature].map (fun v => (nanGuard v).toFloat))

/-- Modelled from the spec: the checksum as the spec describes it, the sum of
the seven core numeric fields treating any not-a-number as zero.  Used only
to exhibit the divergence of the code from this description. -/
def checksumSpec (r : FloatTelemetry) : PyFloat :=
  pySum ([r.position_x, r.position_y, r.position_z,
          r.velocity_x, r.velocity_y, r.velocity_z,
          r.temperature].map (fun v => if v.isnan then .val 0 else v))

/-! ### Strings: Python substring and lower-casing -/

/-- Whether pat occurs as a contiguous substring of the given character list
(the Python `pat in s` test on strings). -/
def strContainsAux (pat : List Char) : List Char → Bool
  | [] => pat.isEmpty
  | c :: rest => pat.isPrefixOf (c :: rest) || strContainsAux pat rest

/-- ASCII lower-casing of one character.  All strings this development
feeds through str.lower are ASCII, where Python str.lower acts exactly
like this. -/
def lowerChar (c : Char) : Char :=
  if 65 ≤ c.toNat ∧ c.toNat ≤ 90 then Char.ofNat (c.toNat + 32) else c

/-- The Python test `'critical' in anomaly.lower()` from
edge_processing.py line 302. -/
def containsCritical (s : String) : Bool :=
  strContainsAux "critical".data (s.data.map lowerChar)

/-! ### Telemetry data (the fields of space_telemetry_pb2.TelemetryData
read by the edge processor; floats embedded as rationals) -/

structure TelemetryData where
  spacecraft_id : String
  timestamp : ℚ
  position_x : ℚ
  position_y : ℚ
  position_z : ℚ
  velocity_x : ℚ
  velocity_y : ℚ
  velocity_z : ℚ
  temperature : ℚ
  radiation_level : ℚ
  energy_level : ℚ
  mode : String
  alert_level : String
deriving DecidableEq

/-! ### Anomaly detection (edge_processing.py lines 539-566) -/

/- TelemetryProcessor.thresholds (edge_processing.py lines 401-407):
temperature_min = -50, temperature_max = 50, velocity_max = 15,
position_change_max = 50, radiation_max = 1000.  The threshold values are
inlined below. -/

/-- TelemetryProcessor.detect_anomalies (edge_processing.py lines 539-566).
lastPos is self.last_position[spacecraft_id] when present.  The two
comparisons of a math.sqrt of a sum of squares against a positive constant
are embedded as comparisons of the sum of squares against the squared
constant, which is equivalent.  The formatted numeric suffixes of the
position-change and radiation finding descriptions are omitted: no caller
inspects them beyond the lower-cased substring test for "critical" and
list length, which the suffixes cannot affect. -/
def detect_anomalies (lastPos : Option (ℚ × ℚ × ℚ)) (tel : TelemetryData) :
    List String :=
  (if tel.temperature < -50 ∨ tel.temperature > 50 then
     ["Temperature out of range"] else [])
  ++ (if tel.velocity_x ^ 2 + tel.velocity_y ^ 2 + tel.velocity_z ^ 2 > 15 ^ 2 then
     ["Velocity exceeds maximum"] else [])
  ++ (match lastPos with
      | some (lx, ly, lz) =>
        if (tel.position_x - lx) ^ 2 + (tel.position_y - ly) ^ 2 +
             (tel.position_z - lz) ^ 2 > 50 ^ 2 ∧ lx + ly + lz ≠ 0 then
          ["Abnormal position change"] else []
      | none => [])
  ++ (if tel.radiation_level > 1000 then
     ["Radiation level too high"] else [])

/-! ### PowerBudget (spec module 4.1; gate used by claim C2) -/

/-- Modelled from the spec: the repository sources under src/ contain no
PowerBudget component (no CanPerform, reserve margin or rate table appears
in src/), so the power gate is modelled from the words of spec section 4.1.
The rate tables are arbitrary functions, matching the property quantifier
"for every rate table". -/
structure PowerBudget where
  max_capacity : ℚ
  generation_rate : ℚ
  consumption_rates : String → ℚ
  operation_rates : String → ℚ

/-- Modelled from the spec: the PowerState singleton of spec section 3. -/
structure PowerState where
  capacity : ℚ
  mode : String
  last_update : ℚ

/-- Modelled from the spec: the fixed reserve margin, 10 percent of the
maximum capacity. -/
def reserveMargin (pb : PowerBudget) : ℚ := pb.max_capacity / 10

/-- Modelled from the spec: Update recomputes capacity from elapsed time
times (generation rate minus mode consumption rate) and clamps the result
to the interval from 0 to max_capacity. -/
def powerUpdate (pb : PowerBudget) (st : PowerState) (now : ℚ) : PowerState :=
  { st with
    capacity :=
      max 0 (min pb.max_capacity
        (st.capacity + (now - st.last_update) *
          (pb.generation_rate - pb.consumption_rates st.mode)))
    last_update := now }

/-- Modelled from the spec: CanPerform(operation, durationSeconds)
recomputes, then checks that projected capacity after consuming
rate[operation] times duration stays above the reserve margin. -/
def canPerform (pb : PowerBudget) (st : PowerState) (now : ℚ)
    (operation : String) (durationSeconds : ℚ) : Bool :=
  let st' := powerUpdate pb st now
  st'.capacity - pb.operation_rates operation * durationSeconds >
    reserveMargin pb

/-! ### Adaptive compressor field selection (edge_processing.py lines 105-185) -/

/-- TelemetryCompressor.field_priorities (edge_processing.py lines 108-121). -/
def field_priorities : List (String × String) :=
  [("spacecraft_id", "critical"),
   ("timestamp", "critical"),
   ("temperature", "high"),
   ("position_x", "medium"),
   ("position_y", "medium"),
   ("position_z", "medium"),
   ("velocity_x", "low"),
   ("velocity_y", "low"),
   ("velocity_z", "low"),
   ("radiation_level", "medium"),
   ("energy_level", "high"),
   ("mode", "high")]

/-- The set of field names placed in filtered_data by
TelemetryCompressor.compress_telemetry (edge_processing.py lines 145-167),
given the bandwidth mode and the list of field names present on the report
(the keys of data_dict).  Precision rounding, JSON serialization and zlib
compression do not change which field names appear in the payload, so they
are not modelled here. -/
def compress_telemetry_fields (bandwidth_mode : String) (present : List String) :
    List String :=
  if bandwidth_mode = "critical" then
    (field_priorities.filter
      (fun p => p.2 = "critical" ∧ present.contains p.1)).map (·.1)
  else if bandwidth_mode = "low" then
    (field_priorities.filter
      (fun p => (p.2 = "critical" ∨ p.2 = "high") ∧ present.contains p.1)).map (·.1)
  else if bandwidth_mode = "normal" then
    (field_priorities.filter
      (fun p => p.2 ≠ "low" ∧ present.contains p.1)).map (·.1)
  else
    present

/-! ### MissionControl (edge_processing.py lines 205-396) -/

/-- A command produced by MissionControl._create_command
(edge_processing.py lines 375-396).  The timestamp is the wall-clock time
of the producing call; the command-history log kept in
self.command_history is write-only in the source (nothing reads it) and
is not modelled. -/
structure Command where
  spacecraft_id : String
  command_type : String
  parameters : List (String × String)
  timestamp : ℚ
deriving DecidableEq

def mkCommand (sc ty : String) (params : List (String × String)) (t : ℚ) :
    Command :=
  { spacecraft_id := sc, command_type := ty, parameters := params,
    timestamp := t }

/-- One entry of MissionControl.spacecraft_history
(edge_processing.py lines 235-243).  last_maintenance is read with
history.get, defaulting to 0, so it is a plain field starting at 0. -/
structure History where
  positions : List (ℚ × ℚ × ℚ)
  temperatures : List ℚ
  energy_levels : List ℚ
  modes : List String
  last_command_time : ℚ
  anomaly_count : ℤ
  last_maintenance : ℚ

/-- The history created on first contact (edge_processing.py lines 236-243). -/
def freshHistory : History :=
  { positions := [], temperatures := [], energy_levels := [], modes := [],
    last_command_time := 0, anomaly_count := 0, last_maintenance := 0 }

/-- Appending to one ring buffer with the max_history = 100 truncation of
edge_processing.py lines 261-267. -/
def pushBounded {α : Type} (l : List α) (x : α) : List α :=
  let l' := l ++ [x]
  if l'.length > 100 then l'.drop (l'.length - 100) else l'

/-- MissionControl.track_spacecraft (edge_processing.py lines 231-267),
restricted to the history entry of the reported spacecraft (the function
touches no other entry).  The hasattr checks for energy_level and mode are
always true on the generated protobuf class, so the values are used
directly. -/
def track_spacecraft (h : History) (tel : TelemetryData) : History :=
  { h with
    positions := pushBounded h.positions
      (tel.position_x, tel.position_y, tel.position_z)
    temperatures := pushBounded h.temperatures tel.temperature
    energy_levels := pushBounded h.energy_levels tel.energy_level
    modes := pushBounded h.modes tel.mode }

/-- The critical-situation test of edge_processing.py lines 299-302,
evaluated after the strike increment: more than one anomaly, or strike
counter at least 3, or energy at or below critical_energy = 15, or any
anomaly description containing "critical" after lower-casing. -/
def isCriticalSituation (anomalies : List String) (cnt : ℤ) (energy : ℚ) :
    Bool :=
  anomalies.length > 1 ∨ cnt ≥ 3 ∨ energy ≤ 15 ∨
    anomalies.any containsCritical

/-- Energy management commands (edge_processing.py lines 313-321):
energy_min = 30. -/
def energyCmds (sc mode : String) (energy : ℚ) (cnt : ℤ) (t : ℚ) :
    List Command :=
  if energy ≤ 30 ∧ mode ≠ "SAFE" then
    [mkCommand sc "MODE_CHANGE" [("mode", "SAFE")] t]
  else if mode = "SAFE" ∧ energy > 60 ∧ cnt = 0 then
    [mkCommand sc "MODE_CHANGE" [("mode", "NORMAL")] t]
  else []

/-- Thermal management commands (edge_processing.py lines 323-330):
temperature_max = 50, temperature_min = -50. -/
def thermalCmds (sc : String) (temperature t : ℚ) : List Command :=
  if temperature > 40 ∧ temperature < 50 then
    [mkCommand sc "THERMAL_CONTROL" [("action", "COOLING")] t]
  else if temperature < -40 ∧ temperature > -50 then
    [mkCommand sc "THERMAL_CONTROL" [("action", "HEATING")] t]
  else []

/-- MissionControl.science_targets (edge_processing.py lines 225-229):
name, position, active flag. -/
def science_targets : List (String × (ℚ × ℚ × ℚ) × Bool) :=
  [("Interesting Nebula", (5000, 2000, 3000), true),
   ("Unusual Asteroid", (-2000, -1000, 4000), true),
   ("Radiation Anomaly", (1000, -3000, 2000), true)]

/-- The for-loop over science targets (edge_processing.py lines 334-352).
draws i models the outcome of the test random.random() < 0.2 at loop
iteration i.  The distance comparison sqrt(dx^2+dy^2+dz^2) < 1000 is
embedded as the equivalent squared comparison.  The loop breaks after the
first appended command; an in-range target while already in SCIENCE mode
appends nothing and does not break. -/
def scienceScan (sc mode : String) (pos : ℚ × ℚ × ℚ) (t : ℚ)
    (draws : ℕ → Bool) :
    ℕ → List (String × (ℚ × ℚ × ℚ) × Bool) → List Command
  | _, [] => []
  | i, (_, tp, active) :: rest =>
    if active then
      if (pos.1 - tp.1) ^ 2 + (pos.2.1 - tp.2.1) ^ 2 + (pos.2.2 - tp.2.2) ^ 2
          < 1000 ^ 2 then
        if mode ≠ "SCIENCE" then
          [mkCommand sc "MODE_CHANGE" [("mode", "SCIENCE")] t]
        else scienceScan sc mode pos t draws (i + 1) rest
      else if mode = "SCIENCE" ∧ draws i then
        [mkCommand sc "MODE_CHANGE" [("mode", "NORMAL")] t]
      else scienceScan sc mode pos t draws (i + 1) rest
    else scienceScan sc mode pos t draws (i + 1) rest

/-- The guarded science block (edge_processing.py lines 332-352). -/
def scienceCmds (sc mode : String) (energy : ℚ) (pos : ℚ × ℚ × ℚ) (t : ℚ)
    (draws : ℕ → Bool) : List Command :=
  if (mode = "NORMAL" ∨ mode = "SCIENCE") ∧ energy > 70 then
    scienceScan sc mode pos t draws 0 science_targets
  else []

/-- Scheduled maintenance (edge_processing.py lines 354-362); returns the
commands and the updated history (last_maintenance is recorded when the
rule fires). -/
def maintCmds (sc mode : String) (energy : ℚ) (h : History) (t : ℚ) :
    List Command × History :=
  if t - h.last_maintenance > 300 ∧ mode ≠ "SAFE" ∧ mode ≠ "MAINTENANCE" ∧
      energy > 60 then
    ([mkCommand sc "MODE_CHANGE" [("mode", "MAINTENANCE")] t],
     { h with last_maintenance := t })
  else ([], h)

/-- Return from maintenance (edge_processing.py lines 364-367). -/
def maintDoneCmds (sc mode : String) (h : History) (t : ℚ) : List Command :=
  if mode = "MAINTENANCE" ∧ h.last_maintenance < t - 30 then
    [mkCommand sc "MODE_CHANGE" [("mode", "NORMAL")] t]
  else []

/-- The rule blocks of make_decision that run when the critical
escalation did not return early (edge_processing.py lines 313-373),
acting on the history h1 left by the strike update: energy management,
thermal management, science, maintenance scheduling and completion, then
the cooldown re-arm when any command was generated (lines 369-371). -/
def postCriticalRules (tel : TelemetryData) (h1 : History) (t : ℚ)
    (draws : ℕ → Bool) : List Command × History :=
  let sc := tel.spacecraft_id
  let ec := energyCmds sc tel.mode tel.energy_level h1.anomaly_count t
  let tc := thermalCmds sc tel.temperature t
  let scc := scienceCmds sc tel.mode tel.energy_level
    (tel.position_x, tel.position_y, tel.position_z) t draws
  let mcp := maintCmds sc tel.mode tel.energy_level h1 t
  let dc := maintDoneCmds sc tel.mode mcp.2 t
  let cmds := ec ++ tc ++ scc ++ mcp.1 ++ dc
  if cmds = [] then ([], mcp.2)
  else (cmds, { mcp.2 with last_command_time := t })

/-- MissionControl.make_decision (edge_processing.py lines 269-373) for the
history entry of the reported spacecraft, returning the command list and
the updated entry.  t is the value of time.time() during the call; draws
feeds the random.random() < 0.2 tests of the science loop.  The hasattr
checks for mode, energy_level and temperature are always true on the
generated protobuf class. -/
def make_decision (h0 : History) (tel : TelemetryData)
    (anomalies : List String) (t : ℚ) (draws : ℕ → Bool) :
    List Command × History :=
  let h := track_spacecraft h0 tel
  -- 10-second cooldown gate (lines 285-287)
  if h.last_command_time > t - 10 then ([], h)
  else
    -- strike update (lines 294-311)
    let h1 :=
      if anomalies ≠ [] then { h with anomaly_count := h.anomaly_count + 1 }
      else { h with anomaly_count := max 0 (h.anomaly_count - 1) }
    -- critical escalation with early return (lines 298-308)
    if anomalies ≠ [] ∧
        isCriticalSituation anomalies (h.anomaly_count + 1) tel.energy_level ∧
        tel.mode ≠ "SAFE" then
      ([mkCommand tel.spacecraft_id "MODE_CHANGE" [("mode", "SAFE")] t],
       { h1 with last_command_time := t })
    else postCriticalRules tel h1 t draws

/-! ### Dictionaries keyed by spacecraft id -/

/-- Lookup in a Python dictionary embedded as an association list. -/
def dget {α : Type} : List (String × α) → String → Option α
  | [], _ => none
  | (k, v) :: rest, key => if k = key then some v else dget rest key

/-- Insertion or overwrite in a Python dictionary embedded as an
association list. -/
def dset {α : Type} : List (String × α) → String → α → List (String × α)
  | [], key, v => [(key, v)]
  | (k, w) :: rest, key, v =>
    if k = key then (key, v) :: rest else (k, w) :: dset rest key v

/-! ### TelemetryProcessor (edge_processing.py lines 398-537) -/

/-- The mutable state of a TelemetryProcessor together with the
spacecraft_history map of its MissionControl
(edge_processing.py lines 408-422 and 221). -/
structure ProcState where
  last_position : List (String × (ℚ × ℚ × ℚ))
  anomaly_count : List (String × ℤ)
  alert_levels : List (String × String)
  bandwidth_mode : String
  histories : List (String × History)

/-- The state of a freshly constructed TelemetryProcessor:
empty maps and bandwidth mode "normal" (edge_processing.py line 422). -/
def initProcState : ProcState :=
  { last_position := [], anomaly_count := [], alert_levels := [],
    bandwidth_mode := "normal", histories := [] }

/-- space_telemetry_pb2.TelemetryResponse as built by SendTelemetry. -/
structure TelemetryResponse where
  status : String
  message : String
  commands : List Command
deriving DecidableEq

/-- Everything the processing stage of SendTelemetry
(edge_processing.py lines 424-497) produces before the packet-loss branch:
the processed telemetry, the anomaly findings, the commands, and the
updated state.  noise i is the Gaussian sample added by the i-th
apply_noise call (0..2 positions, 3..5 velocities, 6 temperature,
7 radiation); its distribution is irrelevant to the claims, so it is an
arbitrary oracle.  t is the wall-clock time, draws the science-loop
random oracle of make_decision. -/
def processTelemetry (st : ProcState) (request : TelemetryData)
    (noise : ℕ → ℚ) (draws : ℕ → Bool) (t : ℚ) :
    TelemetryData × List String × List Command × ProcState :=
  let id := request.spacecraft_id
  -- noisy copy (lines 433-451); note the +1 offsets on positions
  let ptel0 : TelemetryData :=
    { spacecraft_id := id
      timestamp := request.timestamp
      position_x := request.position_x + 1 + noise 0
      position_y := request.position_y + 1 + noise 1
      position_z := request.position_z + 1 + noise 2
      velocity_x := request.velocity_x + noise 3
      velocity_y := request.velocity_y + noise 4
      velocity_z := request.velocity_z + noise 5
      temperature := request.temperature + noise 6
      radiation_level := request.radiation_level + noise 7
      energy_level := request.energy_level
      mode := request.mode
      alert_level := "" }
  -- first-contact initialization (lines 454-457)
  let st1 :=
    if dget st.last_position id = none then
      { st with
        last_position := dset st.last_position id (0, 0, 0)
        anomaly_count := dset st.anomaly_count id 0
        alert_levels := dset st.alert_levels id "NOMINAL" }
    else st
  -- anomaly detection (line 460)
  let anomalies := detect_anomalies (dget st1.last_position id) ptel0
  -- per-spacecraft counter, alert level and bandwidth mode (lines 462-482)
  let cnt := (dget st1.anomaly_count id).getD 0
  let st2 :=
    if anomalies ≠ [] then
      let cnt' := cnt + 1
      if cnt' > 5 then
        { st1 with
          anomaly_count := dset st1.anomaly_count id cnt'
          alert_levels := dset st1.alert_levels id "CRITICAL"
          bandwidth_mode := "critical" }
      else if cnt' > 2 then
        { st1 with
          anomaly_count := dset st1.anomaly_count id cnt'
          alert_levels := dset st1.alert_levels id "WARNING"
          bandwidth_mode := "low" }
      else { st1 with anomaly_count := dset st1.anomaly_count id cnt' }
    else
      let cnt' := max 0 (cnt - 1)
      if cnt' = 0 then
        { st1 with
          anomaly_count := dset st1.anomaly_count id cnt'
          alert_levels := dset st1.alert_levels id "NOMINAL"
          bandwidth_mode := "normal" }
      else { st1 with anomaly_count := dset st1.anomaly_count id cnt' }
  -- annotate alert level (line 485) and update last position (lines 488-490)
  let ptel := { ptel0 with alert_level := (dget st2.alert_levels id).getD "" }
  let st3 := { st2 with
    last_position :=
      dset st2.last_position id (ptel.position_x, ptel.position_y, ptel.position_z) }
  -- autonomous decisions (line 493)
  let h0 := (dget st3.histories id).getD freshHistory
  let r := make_decision h0 ptel anomalies t draws
  let st4 := { st3 with histories := dset st3.histories id r.2 }
  (ptel, anomalies, r.1, st4)

/-- The retry loop of edge_processing.py lines 509-530, recorded as the
list of channel addresses attempted in order.  fwd i is true when attempt
i succeeds (the grpc call returns without raising).  Every attempt opens
"localhost:50053"; a successful attempt breaks, a failed one retries
after a fixed 1-second sleep until max_retries attempts were made. -/
def retryLoop (fwd : ℕ → Bool) : ℕ → ℕ → List String
  | _, 0 => []
  | i, remaining + 1 =>
    "localhost:50053" :: (if fwd i then [] else retryLoop fwd (i + 1) remaining)

/-- The outcome of one SendTelemetry call: the response returned to the
telemetry source, the state after the call, and the receiver channel
addresses the forwarding step attempted (empty when nothing was
forwarded). -/
structure SendResult where
  response : TelemetryResponse
  state : ProcState
  forward_targets : List String

/-- TelemetryProcessor.SendTelemetry (edge_processing.py lines 424-537).
loss is the Bernoulli outcome of comm_simulator.simulate_packet_loss;
fwd the per-attempt outcomes of the forwarding calls.  The sleeps
(apply_delay, backoff, bandwidth-constraint transmission time) only pass
wall-clock time and are not modelled.  The compressed payload bytes are
produced from the processed telemetry and bandwidth mode by
compress_telemetry, whose field selection is modelled by
compress_telemetry_fields; the bytes themselves influence nothing but a
logged ratio and the simulated transmission time, so only the state and
response are recorded here.  The function is total: every exception of
the forwarding step is caught inside the loop, matching the contract that
no error propagates to the caller. -/
def SendTelemetry (st : ProcState) (request : TelemetryData)
    (noise : ℕ → ℚ) (loss : Bool) (fwd : ℕ → Bool) (draws : ℕ → Bool)
    (t : ℚ) : SendResult :=
  let r := processTelemetry st request noise draws t
  let commands := r.2.2.1
  if loss then
    -- packet lost: do not forward, still acknowledge with commands
    { response :=
        { status := if commands = [] then "ACK" else "ACK_WITH_COMMANDS"
          message := "Telemetry received with " ++
            (if commands = [] then "no commands" else "commands")
          commands := commands }
      state := r.2.2.2
      forward_targets := [] }
  else
    { response :=
        { status := if commands = [] then "ACK" else "ACK_WITH_COMMANDS"
          message := "Telemetry processed successfully" ++
            (if commands = [] then "" else " with commands")
          commands := commands }
      state := r.2.2.2
      forward_targets := retryLoop fwd 0 3 }

/-! ### Call traces -/

/-- The inputs of one MissionControl.make_decision call. -/
structure DecisionCall where
  telemetry : TelemetryData
  anomalies : List String
  time : ℚ
  draws : ℕ → Bool

/-- One make_decision call acting on the whole spacecraft_history map:
the entry of the reported spacecraft is read (created fresh on first
contact, as track_spacecraft does) and written back; no other entry is
touched. -/
def mcStep (m : List (String × History)) (c : DecisionCall) :
    List Command × List (String × History) :=
  let id := c.telemetry.spacecraft_id
  let h0 := (dget m id).getD freshHistory
  let r := make_decision h0 c.telemetry c.anomalies c.time c.draws
  (r.1, dset m id r.2)

/-- The trace of a sequence of make_decision calls: for each call, the
spacecraft id, the call time, and the emitted command list. -/
def mcTrace : List (String × History) → List DecisionCall →
    List (String × ℚ × List Command)
  | _, [] => []
  | m, c :: rest =>
    let r := mcStep m c
    (c.telemetry.spacecraft_id, c.time, r.1) :: mcTrace r.2 rest

/-- The spacecraft_history map after a sequence of make_decision calls. -/
def mcRun (m : List (String × History)) (cs : List DecisionCall) :
    List (String × History) :=
  cs.foldl (fun m c => (mcStep m c).2) m

/-- The issue timestamps of the non-empty command emissions for one
spacecraft along a trace. -/
def emitTimesFor (sc : String) (m : List (String × History))
    (cs : List DecisionCall) : List ℚ :=
  (mcTrace m cs).filterMap
    (fun e => if e.1 = sc ∧ e.2.2 ≠ [] then some e.2.1 else none)

/-- The inputs of one SendTelemetry call. -/
structure TelemetryCall where
  request : TelemetryData
  noise : ℕ → ℚ
  loss : Bool
  fwd : ℕ → Bool
  draws : ℕ → Bool
  time : ℚ

/-- The processor state after a sequence of SendTelemetry calls. -/
def runProcessor (st : ProcState) (calls : List TelemetryCall) : ProcState :=
  calls.foldl
    (fun s c =>
      (SendTelemetry s c.request c.noise c.loss c.fwd c.draws c.time).state)
    st

/-! ### Concrete sample inputs used by witnesses and counterexamples -/

/-- A telemetry report whose velocity magnitude is 60. -/
def telVel60 : TelemetryData :=
  { spacecraft_id := "VOYAGER-4", timestamp := 0,
    position_x := 0, position_y := 0, position_z := 0,
    velocity_x := 60, velocity_y := 0, velocity_z := 0,
    temperature := 0, radiation_level := 0, energy_level := 100,
    mode := "NORMAL", alert_level := "" }

/-- A report whose position_x is NaN and whose other core fields are 0. -/
def nanReport : FloatTelemetry :=
  { position_x := .nan, position_y := .val 0, position_z := .val 0,
    velocity_x := .val 0, velocity_y := .val 0, velocity_z := .val 0,
    temperature := .val 0 }

/-- A report at the first science target with high energy in NORMAL mode. -/
def telSci : TelemetryData :=
  { spacecraft_id := "VOYAGER-4", timestamp := 0,
    position_x := 5000, position_y := 2000, position_z := 3000,
    velocity_x := 0, velocity_y := 0, velocity_z := 0,
    temperature := 0, radiation_level := 0, energy_level := 80,
    mode := "NORMAL", alert_level := "" }

/-- A report with temperature 45 and mid energy in NORMAL mode. -/
def telTemp45 : TelemetryData :=
  { spacecraft_id := "VOYAGER-4", timestamp := 0,
    position_x := 0, position_y := 0, position_z := 0,
    velocity_x := 0, velocity_y := 0, velocity_z := 0,
    temperature := 45, radiation_level := 0, energy_level := 50,
    mode := "NORMAL", alert_level := "" }

/-- A history with one strike whose last command was issued at time 10. -/
def cntOneHistory : History :=
  { freshHistory with anomaly_count := 1, last_command_time := 10 }

/-- The count of MODE_CHANGE commands in a command list. -/
def countModeChanges (l : List Command) : ℕ :=
  l.countP (fun c => decide (c.command_type = "MODE_CHANGE"))

/-- A power budget with capacity 100, no generation or mode drain, and
every operation costing 1 unit per second. -/
def samplePowerBudget : PowerBudget :=
  { max_capacity := 100, generation_rate := 0,
    consumption_rates := fun _ => 0, operation_rates := fun _ => 1 }

/-- A full power state last updated at time 0. -/
def samplePowerState : PowerState :=
  { capacity := 100, mode := "idle", last_update := 0 }

/-- Two issue timestamps at least 10 seconds apart, oldest first. -/
def spacedBy10 (a b : ℚ) : Prop := a + 10 ≤ b

instance spacedBy10_trans : IsTrans ℚ spacedBy10 :=
  ⟨fun x y z h1 h2 => by unfold spacedBy10 at h1 h2 ⊢; linarith⟩

/-! ### Theorems -/

/-- Helper: the per-field expression `math.isnan(v) and 0 or v` of the
receiver checksum evaluates to v itself for every float v, NaN included:
when v is NaN the and-branch produces the integer 0, which is falsy, so
the or falls through to v. -/
theorem nanGuard_toFloat (v : PyFloat) : (nanGuard v).toFloat = v := by
  cases v <;> rfl

/-- C2 (confirmed, spec-modelled): if CanPerform(op, d) returns true then
the capacity remaining after consuming rate[op] times d is at least the
reserve margin, for every rate table, duration and power state. -/
theorem canPerform_reserve_conservative (pb : PowerBudget) (st : PowerState)
    (now : ℚ) (op : String) (d : ℚ)
    (h : canPerform pb st now op d = true) :
    (powerUpdate pb st now).capacity - pb.operation_rates op * d ≥
      reserveMargin pb := by
  unfold canPerform at h
  simp only [decide_eq_true_eq] at h
  linarith

/-- Witness for C2 at a concrete budget, state and duration. -/
theorem canPerform_reserve_conservative_witness :
    canPerform samplePowerBudget samplePowerState 0 "data_transmission" 5 = true ∧
    (powerUpdate samplePowerBudget samplePowerState 0).capacity -
        samplePowerBudget.operation_rates "data_transmission" * 5 ≥
      reserveMargin samplePowerBudget :=
  ⟨by norm_num [canPerform, powerUpdate, reserveMargin, samplePowerBudget,
      samplePowerState],
   canPerform_reserve_conservative samplePowerBudget samplePowerState 0
     "data_transmission" 5
     (by norm_num [canPerform, powerUpdate, reserveMargin, samplePowerBudget,
        samplePowerState])⟩

/-- C5 (code bug): on a report whose position_x is NaN the checksum
computed by the code is NaN, because `math.isnan(v) and 0 or v` evaluates
to v even for NaN (the 0 produced by the and-branch is falsy), while the
spec requires the NaN field to contribute 0, giving checksum 0. -/
theorem checksum_nan_divergence :
    calculate_checksum nanReport = PyFloat.nan ∧
    checksumSpec nanReport = PyFloat.val 0 := by
  constructor
  · rfl
  · norm_num [checksumSpec, nanReport, pySum, PyFloat.add, PyFloat.isnan]

/-- Helper: weakening the filter predicate only grows the selected field
name list. -/
theorem filter_map_fst_subset {l : List (String × String)}
    {P Q : String × String → Bool} (h : ∀ p, P p = true → Q p = true) :
    (l.filter P).map (·.1) ⊆ (l.filter Q).map (·.1) := by
  intro x hx
  simp only [List.mem_map, List.mem_filter] at hx ⊢
  obtain ⟨p, ⟨hp, hP⟩, rfl⟩ := hx
  exact ⟨p, ⟨hp, h p hP⟩, rfl⟩

/-- C8 (confirmed): for every report, the field set selected for the
compressed payload in mode "critical" is a subset of the one for "low",
which is a subset of the one for "normal", which is a subset of the one
for "high". -/
theorem compressor_subset_law (present : List String) :
    compress_telemetry_fields "critical" present ⊆
      compress_telemetry_fields "low" present ∧
    compress_telemetry_fields "low" present ⊆
      compress_telemetry_fields "normal" present ∧
    compress_telemetry_fields "normal" present ⊆
      compress_telemetry_fields "high" present := by
  refine ⟨?_, ?_, ?_⟩
  · exact filter_map_fst_subset (fun p hp => by
      simp only [decide_eq_true_eq] at hp ⊢
      exact ⟨Or.inl hp.1, hp.2⟩)
  · exact filter_map_fst_subset (fun p hp => by
      simp only [decide_eq_true_eq] at hp ⊢
      refine ⟨?_, hp.2⟩
      rcases hp.1 with h | h <;> simp [h])
  · intro x hx
    simp only [compress_telemetry_fields, String.reduceEq, reduceIte,
      List.mem_map, List.mem_filter, decide_eq_true_eq] at hx ⊢
    obtain ⟨p, ⟨-, -, hpres⟩, rfl⟩ := hx
    simpa using hpres

/-- C6 counterexample: at velocity (60, 0, 0) the speed exceeds 50, so the
claim demands a critical-tagged velocity finding, but the detector emits
only "Velocity exceeds maximum", and no emitted finding contains the
critical marker the decision engine tests for. -/
theorem velocity_critical_counterexample :
    (60 : ℚ) ^ 2 + 0 ^ 2 + 0 ^ 2 > 50 ^ 2 ∧
    detect_anomalies none telVel60 = ["Velocity exceeds maximum"] ∧
    ¬ ∃ f ∈ detect_anomalies none telVel60, containsCritical f = true := by
  refine ⟨by norm_num, ?_, ?_⟩
  · norm_num [detect_anomalies, telVel60]
  · norm_num [detect_anomalies, telVel60]
    decide

/-- C6 (corrected): the detector emits the velocity finding, whose
description is "Velocity exceeds maximum" and is not tagged critical,
exactly when the Euclidean norm of the velocity exceeds the
velocity_max threshold 15 (not 50). -/
theorem velocity_finding_amended (lastPos : Option (ℚ × ℚ × ℚ))
    (tel : TelemetryData) :
    ("Velocity exceeds maximum" ∈ detect_anomalies lastPos tel ↔
      tel.velocity_x ^ 2 + tel.velocity_y ^ 2 + tel.velocity_z ^ 2 > 15 ^ 2)
    ∧ containsCritical "Velocity exceeds maximum" = false := by
  constructor
  · unfold detect_anomalies
    rcases lastPos with _ | ⟨lx, ly, lz⟩ <;>
      · simp only [List.mem_append]
        split_ifs <;> simp_all
  · decide

/-- Helper: tracking only appends to the ring buffers. -/
theorem track_lct (h : History) (tel : TelemetryData) :
    (track_spacecraft h tel).last_command_time = h.last_command_time := rfl

/-- Helper: tracking does not touch the strike counter. -/
theorem track_cnt (h : History) (tel : TelemetryData) :
    (track_spacecraft h tel).anomaly_count = h.anomaly_count := rfl

/-- Helper: the maintenance rule does not touch the cooldown timestamp. -/
theorem maintCmds_lct (sc mode : String) (energy : ℚ) (h : History) (t : ℚ) :
    ((maintCmds sc mode energy h t).2).last_command_time =
      h.last_command_time := by
  unfold maintCmds; split_ifs <;> rfl

/-- Helper: the maintenance rule does not touch the strike counter. -/
theorem maintCmds_cnt (sc mode : String) (energy : ℚ) (h : History) (t : ℚ) :
    ((maintCmds sc mode energy h t).2).anomaly_count = h.anomaly_count := by
  unfold maintCmds; split_ifs <;> rfl

/-- Helper: the non-critical rule blocks leave the cooldown timestamp of
h1 alone on an empty emission and set it to the call time otherwise. -/
theorem postCriticalRules_lct (tel : TelemetryData) (h1 : History) (t : ℚ)
    (draws : ℕ → Bool) :
    ((postCriticalRules tel h1 t draws).1 = [] →
      ((postCriticalRules tel h1 t draws).2).last_command_time =
        h1.last_command_time) ∧
    ((postCriticalRules tel h1 t draws).1 ≠ [] →
      ((postCriticalRules tel h1 t draws).2).last_command_time = t) := by
  unfold postCriticalRules
  dsimp only
  split_ifs <;> constructor <;> intro hne <;>
    simp_all [maintCmds_lct]

/-- Helper: the non-critical rule blocks do not touch the strike counter. -/
theorem postCriticalRules_cnt (tel : TelemetryData) (h1 : History) (t : ℚ)
    (draws : ℕ → Bool) :
    ((postCriticalRules tel h1 t draws).2).anomaly_count =
      h1.anomaly_count := by
  unfold postCriticalRules
  dsimp only
  split_ifs <;> simp [maintCmds_cnt]

/-- Helper: how one make_decision call transforms the cooldown timestamp:
an empty emission leaves it unchanged, a non-empty emission sets it to the
call time, and a non-empty emission can only happen when the previous
timestamp is at least 10 seconds old. -/
theorem make_decision_lct (h0 : History) (tel : TelemetryData)
    (an : List String) (t : ℚ) (draws : ℕ → Bool) :
    ((make_decision h0 tel an t draws).1 = [] →
      ((make_decision h0 tel an t draws).2).last_command_time =
        h0.last_command_time) ∧
    ((make_decision h0 tel an t draws).1 ≠ [] →
      ((make_decision h0 tel an t draws).2).last_command_time = t ∧
        h0.last_command_time ≤ t - 10) := by
  unfold make_decision
  dsimp only
  split_ifs with hgate hb hc
  · exact ⟨fun _ => track_lct h0 tel, fun hne => absurd rfl hne⟩
  · constructor
    · intro hne; simp at hne
    · intro hne
      refine ⟨rfl, ?_⟩
      rw [track_lct] at hgate
      exact not_lt.mp hgate
  · constructor
    · intro hne; simp at hne
    · intro hne
      refine ⟨rfl, ?_⟩
      rw [track_lct] at hgate
      exact not_lt.mp hgate
  · constructor
    · intro hne
      rw [(postCriticalRules_lct tel _ t draws).1 hne]
      exact track_lct h0 tel
    · intro hne
      refine ⟨(postCriticalRules_lct tel _ t draws).2 hne, ?_⟩
      rw [track_lct] at hgate
      exact not_lt.mp hgate
  · constructor
    · intro hne
      rw [(postCriticalRules_lct tel _ t draws).1 hne]
      exact track_lct h0 tel
    · intro hne
      refine ⟨(postCriticalRules_lct tel _ t draws).2 hne, ?_⟩
      rw [track_lct] at hgate
      exact not_lt.mp hgate

/-- Helper: how one make_decision call transforms the strike counter:
unchanged when the cooldown gate blocks the call, incremented when
findings are present, decremented with floor 0 otherwise. -/
theorem make_decision_cnt (h0 : History) (tel : TelemetryData)
    (an : List String) (t : ℚ) (draws : ℕ → Bool) :
    ((make_decision h0 tel an t draws).2).anomaly_count =
      if h0.last_command_time > t - 10 then h0.anomaly_count
      else if an = [] then max 0 (h0.anomaly_count - 1)
      else h0.anomaly_count + 1 := by
  unfold make_decision
  dsimp only
  split_ifs with hgate hcrit <;>
    simp_all [track_lct, track_cnt, postCriticalRules_cnt]

/-- Helper: looking up the key just written returns the written value. -/
theorem dget_dset_self {α : Type} (m : List (String × α)) (k : String)
    (v : α) : dget (dset m k v) k = some v := by
  induction m with
  | nil => simp [dget, dset]
  | cons p rest ih =>
    by_cases h : p.1 = k <;> simp [dget, dset, h, ih]

/-- Helper: writing one key does not change the lookup of another. -/
theorem dget_dset_ne {α : Type} (m : List (String × α)) (k k' : String)
    (v : α) (h : k ≠ k') : dget (dset m k v) k' = dget m k' := by
  induction m with
  | nil => simp [dget, dset, h]
  | cons p rest ih =>
    by_cases hp : p.1 = k <;> simp [dget, dset, hp, h, ih]

/-- Helper: the strike counter of every map entry stays nonnegative along
a sequence of make_decision calls. -/
theorem mcRun_cnt_nonneg (cs : List DecisionCall) :
    ∀ (m : List (String × History)),
      (∀ sc, 0 ≤ ((dget m sc).getD freshHistory).anomaly_count) →
      ∀ sc, 0 ≤ ((dget (mcRun m cs) sc).getD freshHistory).anomaly_count := by
  induction cs with
  | nil => intro m hm sc; simpa [mcRun] using hm sc
  | cons c rest ih =>
    intro m hm sc
    have hstep : mcRun m (c :: rest) = mcRun (mcStep m c).2 rest := rfl
    rw [hstep]
    refine ih (mcStep m c).2 ?_ sc
    intro sc'
    by_cases hid : c.telemetry.spacecraft_id = sc'
    · have hset : dget (mcStep m c).2 sc' =
          some (make_decision ((dget m c.telemetry.spacecraft_id).getD
            freshHistory) c.telemetry c.anomalies c.time c.draws).2 := by
        simp only [mcStep]
        rw [← hid, dget_dset_self]
      rw [hset]
      simp only [Option.getD_some]
      rw [make_decision_cnt]
      have h0 := hm c.telemetry.spacecraft_id
      split_ifs <;> omega
    · have hset : dget (mcStep m c).2 sc' = dget m sc' := by
        simp only [mcStep]
        exact dget_dset_ne _ _ _ _ hid
      rw [hset]; exact hm sc'

/-- C4 counterexample: a call with empty findings that arrives 5 seconds
after the last command is rejected by the cooldown gate before the strike
update, so a counter at 1 stays at 1 instead of decreasing to the claimed
max 0 (1 - 1) = 0. -/
theorem strike_decrement_counterexample :
    ¬ (∀ (h0 : History) (tel : TelemetryData) (t : ℚ) (draws : ℕ → Bool),
        ((make_decision h0 tel [] t draws).2).anomaly_count =
          max 0 (h0.anomaly_count - 1)) := by
  intro hcl
  have h := hcl cntOneHistory telVel60 15 (fun _ => false)
  rw [make_decision_cnt] at h
  norm_num [cntOneHistory, freshHistory] at h

/-- C4 (corrected): across every sequence of decision-engine calls each
spacecraft strike counter stays nonnegative, and one call leaves the
counter unchanged when the cooldown gate rejects the call, increments it
when the findings list is non-empty, and decrements it with floor 0 when
the findings list is empty. -/
theorem strike_counter_amended :
    (∀ (cs : List DecisionCall) (i : ℕ) (sc : String),
      0 ≤ ((dget (mcRun [] (cs.take i)) sc).getD freshHistory).anomaly_count) ∧
    (∀ (h0 : History) (tel : TelemetryData) (an : List String) (t : ℚ)
        (draws : ℕ → Bool),
      ((make_decision h0 tel an t draws).2).anomaly_count =
        if h0.last_command_time > t - 10 then h0.anomaly_count
        else if an = [] then max 0 (h0.anomaly_count - 1)
        else h0.anomaly_count + 1) := by
  constructor
  · intro cs i sc
    refine mcRun_cnt_nonneg (cs.take i) [] ?_ sc
    intro sc'
    simp [dget, freshHistory]
  · exact make_decision_cnt

/-- Helper: the energy-management block emits at most one command. -/
theorem energyCmds_len (sc mode : String) (e : ℚ) (cnt : ℤ) (t : ℚ) :
    (energyCmds sc mode e cnt t).length ≤ 1 := by
  unfold energyCmds; split_ifs <;> simp

/-- Helper: the science block emits at most one command. -/
theorem scienceScan_len (sc mode : String) (pos : ℚ × ℚ × ℚ) (t : ℚ)
    (draws : ℕ → Bool) :
    ∀ (targets : List (String × (ℚ × ℚ × ℚ) × Bool)) (i : ℕ),
      (scienceScan sc mode pos t draws i targets).length ≤ 1 := by
  intro targets
  induction targets with
  | nil => intro i; simp [scienceScan]
  | cons p rest ih =>
    intro i
    obtain ⟨n, tp, act⟩ := p
    unfold scienceScan
    split_ifs <;> simp [ih]

/-- Helper: the guarded science block emits at most one command. -/
theorem scienceCmds_len (sc mode : String) (e : ℚ) (pos : ℚ × ℚ × ℚ)
    (t : ℚ) (draws : ℕ → Bool) :
    (scienceCmds sc mode e pos t draws).length ≤ 1 := by
  unfold scienceCmds
  split_ifs
  · exact scienceScan_len sc mode pos t draws science_targets 0
  · simp

/-- Helper: the scheduled-maintenance block emits at most one command. -/
theorem maintCmds_len (sc mode : String) (e : ℚ) (h : History) (t : ℚ) :
    (maintCmds sc mode e h t).1.length ≤ 1 := by
  unfold maintCmds; split_ifs <;> simp

/-- Helper: the maintenance-completion block emits at most one command. -/
theorem maintDoneCmds_len (sc mode : String) (h : History) (t : ℚ) :
    (maintDoneCmds sc mode h t).length ≤ 1 := by
  unfold maintDoneCmds; split_ifs <;> simp

/-- Helper: thermal commands are no MODE_CHANGE commands. -/
theorem thermalCmds_countMC (sc : String) (temp t : ℚ) :
    countModeChanges (thermalCmds sc temp t) = 0 := by
  unfold thermalCmds countModeChanges
  split_ifs <;> simp [mkCommand]

/-- Helper: a non-empty energy block forces low energy or SAFE mode. -/
theorem energyCmds_ne_nil (sc mode : String) (e : ℚ) (cnt : ℤ) (t : ℚ)
    (h : energyCmds sc mode e cnt t ≠ []) :
    (e ≤ 30 ∧ mode ≠ "SAFE") ∨ mode = "SAFE" := by
  unfold energyCmds at h
  split_ifs at h with h1 h2
  · exact Or.inl h1
  · exact Or.inr h2.1
  · exact absurd rfl h

/-- Helper: a non-empty maintenance-completion block forces MAINTENANCE
mode. -/
theorem maintDoneCmds_ne_nil (sc mode : String) (h : History) (t : ℚ)
    (hne : maintDoneCmds sc mode h t ≠ []) : mode = "MAINTENANCE" := by
  unfold maintDoneCmds at hne
  split_ifs at hne with h1
  · exact h1.1
  · exact absurd rfl hne

/-- Helper: the science block is empty unless the mode is NORMAL or
SCIENCE and the energy exceeds 70. -/
theorem scienceCmds_nil (sc mode : String) (e : ℚ) (pos : ℚ × ℚ × ℚ)
    (t : ℚ) (draws : ℕ → Bool)
    (h : ¬ ((mode = "NORMAL" ∨ mode = "SCIENCE") ∧ e > 70)) :
    scienceCmds sc mode e pos t draws = [] := by
  unfold scienceCmds
  rw [if_neg h]

/-- Helper: the maintenance block is empty when the mode is SAFE or
MAINTENANCE or the energy is at most 60. -/
theorem maintCmds_nil (sc mode : String) (e : ℚ) (h : History) (t : ℚ)
    (hcond : ¬ (t - h.last_maintenance > 300 ∧ mode ≠ "SAFE" ∧
      mode ≠ "MAINTENANCE" ∧ e > 60)) :
    (maintCmds sc mode e h t).1 = [] := by
  unfold maintCmds
  rw [if_neg hcond]

/-- Helper: the non-critical rule blocks together emit at most two
MODE_CHANGE commands: the energy block excludes the science and
maintenance blocks (low energy or SAFE mode), the completion block
excludes them as well (MAINTENANCE mode), and the thermal block emits no
MODE_CHANGE at all. -/
theorem ruleBlocks_bound (sc mode : String) (energy temp : ℚ)
    (pos : ℚ × ℚ × ℚ) (cnt : ℤ) (h1 : History) (t : ℚ) (draws : ℕ → Bool) :
    countModeChanges
      (energyCmds sc mode energy cnt t ++ thermalCmds sc temp t ++
       scienceCmds sc mode energy pos t draws ++
       (maintCmds sc mode energy h1 t).1 ++
       maintDoneCmds sc mode (maintCmds sc mode energy h1 t).2 t) ≤ 2 := by
  have htc := thermalCmds_countMC sc temp t
  have hcount : ∀ l : List Command, countModeChanges l ≤ l.length :=
    fun l => List.countP_le_length _
  simp only [countModeChanges, List.countP_append] at htc ⊢
  by_cases hec : energyCmds sc mode energy cnt t = []
  · by_cases hdc :
        maintDoneCmds sc mode (maintCmds sc mode energy h1 t).2 t = []
    · have h3 := (hcount (scienceCmds sc mode energy pos t draws)).trans
        (scienceCmds_len sc mode energy pos t draws)
      have h4 := (hcount (maintCmds sc mode energy h1 t).1).trans
        (maintCmds_len sc mode energy h1 t)
      simp only [countModeChanges] at h3 h4
      simp [hec, hdc, htc]
      omega
    · have hmode := maintDoneCmds_ne_nil sc mode _ t hdc
      have hsc : scienceCmds sc mode energy pos t draws = [] := by
        refine scienceCmds_nil sc mode energy pos t draws ?_
        rw [hmode]; simp
      have hmc : (maintCmds sc mode energy h1 t).1 = [] := by
        refine maintCmds_nil sc mode energy h1 t ?_
        rw [hmode]; simp
      have h5 := (hcount
        (maintDoneCmds sc mode (maintCmds sc mode energy h1 t).2 t)).trans
        (maintDoneCmds_len sc mode _ t)
      simp only [countModeChanges] at h5
      simp [hec, hsc, hmc, htc]
      omega
  · have hcond := energyCmds_ne_nil sc mode energy cnt t hec
    have hsc : scienceCmds sc mode energy pos t draws = [] := by
      refine scienceCmds_nil sc mode energy pos t draws ?_
      rcases hcond with ⟨he, -⟩ | hsafe
      · rintro ⟨-, h70⟩; linarith
      · rw [hsafe]; simp
    have hmc : (maintCmds sc mode energy h1 t).1 = [] := by
      refine maintCmds_nil sc mode energy h1 t ?_
      rcases hcond with ⟨he, -⟩ | hsafe
      · rintro ⟨-, -, -, h60⟩; linarith
      · rw [hsafe]; simp
    have h1l := (hcount (energyCmds sc mode energy cnt t)).trans
      (energyCmds_len sc mode energy cnt t)
    have h5 := (hcount
      (maintDoneCmds sc mode (maintCmds sc mode energy h1 t).2 t)).trans
      (maintDoneCmds_len sc mode _ t)
    simp only [countModeChanges] at h1l h5
    simp [hsc, hmc, htc]
    omega

/-- C7 counterexample: a call in NORMAL mode with energy 80, positioned at
a science target, with maintenance due, emits both MODE_CHANGE SCIENCE
and MODE_CHANGE MAINTENANCE: the rule blocks after the critical
escalation do not short-circuit. -/
theorem mode_change_two_commands_counterexample :
    ¬ (∀ (h0 : History) (tel : TelemetryData) (an : List String) (t : ℚ)
         (draws : ℕ → Bool),
        countModeChanges (make_decision h0 tel an t draws).1 ≤ 1) := by
  intro hcl
  have h := hcl freshHistory telSci [] 1000 (fun _ => false)
  have f1 : ¬((0 : ℚ) > 1000 - 10) := by norm_num
  have f2 : ¬((80 : ℚ) ≤ 30) := by norm_num
  have f3 : (80 : ℚ) > 70 := by norm_num
  have f4 : ¬((0 : ℚ) > 40) := by norm_num
  have f5 : ¬((0 : ℚ) < -40) := by norm_num
  have f6 : (1000 : ℚ) - 0 > 300 := by norm_num
  have f7 : (80 : ℚ) > 60 := by norm_num
  have f8 : ((5000 : ℚ) - 5000) ^ 2 + ((2000 : ℚ) - 2000) ^ 2 +
      ((3000 : ℚ) - 3000) ^ 2 < 1000 ^ 2 := by norm_num
  have f9 : (300 : ℚ) < 1000 := by norm_num
  simp [make_decision, postCriticalRules, track_spacecraft, pushBounded,
    freshHistory, telSci, energyCmds, thermalCmds, scienceCmds, scienceScan,
    science_targets, maintCmds, maintDoneCmds, isCriticalSituation,
    mkCommand, countModeChanges, f1, f2, f3, f4, f5, f6, f7, f8, f9] at h

/-- C7 (corrected): one decision-engine call returns at most two
MODE_CHANGE commands; only the critical-escalation rule short-circuits,
and the science and maintenance blocks can each add one MODE_CHANGE to
an energy-rule emission-free cycle. -/
theorem mode_change_bound_amended (h0 : History) (tel : TelemetryData)
    (an : List String) (t : ℚ) (draws : ℕ → Bool) :
    countModeChanges (make_decision h0 tel an t draws).1 ≤ 2 := by
  have hpost : ∀ h1 : History,
      countModeChanges (postCriticalRules tel h1 t draws).1 ≤ 2 := by
    intro h1
    unfold postCriticalRules
    dsimp only
    split_ifs
    · simp [countModeChanges]
    · exact ruleBlocks_bound _ _ _ _ _ _ _ _ _
  unfold make_decision
  dsimp only
  split_ifs
  · norm_num [countModeChanges]
  · norm_num [countModeChanges, mkCommand]
  · norm_num [countModeChanges, mkCommand]
  · exact hpost _
  · exact hpost _

/-- Helper: after one trace step the entry of the stepped spacecraft holds
the make_decision result. -/
theorem mcStep_dget_self (m : List (String × History)) (c : DecisionCall) :
    dget (mcStep m c).2 c.telemetry.spacecraft_id =
      some (make_decision ((dget m c.telemetry.spacecraft_id).getD
        freshHistory) c.telemetry c.anomalies c.time c.draws).2 := by
  simp only [mcStep]
  exact dget_dset_self _ _ _

/-- Helper: a trace step leaves every other spacecraft entry unchanged. -/
theorem mcStep_dget_ne (m : List (String × History)) (c : DecisionCall)
    (sc : String) (h : c.telemetry.spacecraft_id ≠ sc) :
    dget (mcStep m c).2 sc = dget m sc := by
  simp only [mcStep]
  exact dget_dset_ne _ _ _ _ h

/-- Helper: unfolding one step of the call trace. -/
theorem mcTrace_cons (m : List (String × History)) (c : DecisionCall)
    (rest : List DecisionCall) :
    mcTrace m (c :: rest) =
      (c.telemetry.spacecraft_id, c.time, (mcStep m c).1) ::
        mcTrace (mcStep m c).2 rest := rfl

/-- Helper: unfolding one step of the emission-timestamp trace. -/
theorem emitTimesFor_cons (sc : String) (m : List (String × History))
    (c : DecisionCall) (rest : List DecisionCall) :
    emitTimesFor sc m (c :: rest) =
      (if c.telemetry.spacecraft_id = sc ∧ (mcStep m c).1 ≠ [] then [c.time]
       else []) ++ emitTimesFor sc (mcStep m c).2 rest := by
  unfold emitTimesFor
  rw [mcTrace_cons, List.filterMap_cons]
  split_ifs with h <;> simp

/-- Helper: along any sequence of make_decision calls, the emission
timestamps for one spacecraft form a chain in which each element is at
least 10 seconds after the previous one, starting from the cooldown
timestamp currently stored for that spacecraft. -/
theorem mcTrace_chain (sc : String) :
    ∀ (cs : List DecisionCall) (m : List (String × History)),
      List.Chain spacedBy10
        (((dget m sc).getD freshHistory).last_command_time)
        (emitTimesFor sc m cs) := by
  intro cs
  induction cs with
  | nil =>
    intro m
    simp only [emitTimesFor, mcTrace, List.filterMap_nil]
    exact List.Chain.nil
  | cons c rest ih =>
    intro m
    rw [emitTimesFor_cons]
    by_cases hcond : c.telemetry.spacecraft_id = sc ∧ (mcStep m c).1 ≠ []
    · rw [if_pos hcond]
      obtain ⟨hid, hne⟩ := hcond
      have hmk := (make_decision_lct
        ((dget m c.telemetry.spacecraft_id).getD freshHistory)
        c.telemetry c.anomalies c.time c.draws).2 hne
      refine List.Chain.cons ?_ ?_
      · unfold spacedBy10
        rw [← hid]
        linarith [hmk.2]
      · have htail := ih (mcStep m c).2
        have hlook : dget (mcStep m c).2 sc =
            some (make_decision ((dget m c.telemetry.spacecraft_id).getD
              freshHistory) c.telemetry c.anomalies c.time c.draws).2 := by
          rw [← hid]
          exact mcStep_dget_self m c
        rw [hlook] at htail
        rw [Option.getD_some, hmk.1] at htail
        exact htail
    · rw [if_neg hcond, List.nil_append]
      by_cases hid : c.telemetry.spacecraft_id = sc
      · have hne : (mcStep m c).1 = [] := by
          by_contra hx
          exact hcond ⟨hid, hx⟩
        have htail := ih (mcStep m c).2
        have hlook : dget (mcStep m c).2 sc =
            some (make_decision ((dget m c.telemetry.spacecraft_id).getD
              freshHistory) c.telemetry c.anomalies c.time c.draws).2 := by
          rw [← hid]
          exact mcStep_dget_self m c
        rw [hlook, Option.getD_some] at htail
        have hpres := (make_decision_lct
          ((dget m c.telemetry.spacecraft_id).getD freshHistory)
          c.telemetry c.anomalies c.time c.draws).1 hne
        rw [hpres, hid] at htail
        exact htail
      · have htail := ih (mcStep m c).2
        rw [mcStep_dget_ne m c sc hid] at htail
        exact htail

/-- C3 (confirmed): for every spacecraft and every sequence of
decision-engine calls, the issue timestamps of non-empty command
emissions for that spacecraft are pairwise at least 10 seconds apart; a
call arriving less than 10 seconds after the stored cooldown timestamp
emits nothing, and every non-empty emission re-arms the cooldown
timestamp to the call time. -/
theorem cooldown_invariant :
    (∀ (sc : String) (cs : List DecisionCall),
      (emitTimesFor sc [] cs).Pairwise spacedBy10) ∧
    (∀ (h0 : History) (tel : TelemetryData) (an : List String) (t : ℚ)
        (draws : ℕ → Bool),
      h0.last_command_time > t - 10 →
      (make_decision h0 tel an t draws).1 = []) ∧
    (∀ (h0 : History) (tel : TelemetryData) (an : List String) (t : ℚ)
        (draws : ℕ → Bool),
      (make_decision h0 tel an t draws).1 ≠ [] →
      ((make_decision h0 tel an t draws).2).last_command_time = t) := by
  refine ⟨?_, ?_, ?_⟩
  · intro sc cs
    exact (List.chain_iff_pairwise.mp (mcTrace_chain sc cs [])).of_cons
  · intro h0 tel an t draws hgate
    by_contra hx
    have hle := ((make_decision_lct h0 tel an t draws).2 hx).2
    linarith
  · intro h0 tel an t draws hne
    exact ((make_decision_lct h0 tel an t draws).2 hne).1

/-- Witness for C3: a fresh spacecraft queried at time 5 is still inside
the initial cooldown window and gets no command; at time 20 a thermal
warning produces a command and the cooldown timestamp becomes 20. -/
theorem cooldown_invariant_witness :
    (make_decision freshHistory telTemp45 [] 5 (fun _ => false)).1 = [] ∧
    ((make_decision freshHistory telTemp45 [] 20
        (fun _ => false)).2).last_command_time = 20 := by
  have g1 : ¬ ((0 : ℚ) > 20 - 10) := by norm_num
  have g2 : ¬ ((50 : ℚ) ≤ 30) := by norm_num
  have g3 : (45 : ℚ) > 40 := by norm_num
  have g4 : (45 : ℚ) < 50 := by norm_num
  have g5 : ¬ ((50 : ℚ) > 70) := by norm_num
  have g6 : ¬ ((20 : ℚ) - 0 > 300) := by norm_num
  refine ⟨cooldown_invariant.2.1 freshHistory telTemp45 [] 5 (fun _ => false)
    (by norm_num [freshHistory]), cooldown_invariant.2.2 freshHistory
    telTemp45 [] 20 (fun _ => false) ?_⟩
  simp [make_decision, postCriticalRules, track_spacecraft, pushBounded,
    freshHistory, telTemp45, energyCmds, thermalCmds, scienceCmds,
    scienceScan, science_targets, maintCmds, maintDoneCmds,
    isCriticalSituation, mkCommand, g1, g2, g3, g4, g5, g6]

/-- Helper: when the packet-loss draw is false the forwarding step runs
the retry loop. -/
theorem SendTelemetry_sent_targets (st : ProcState) (request : TelemetryData)
    (noise : ℕ → ℚ) (fwd : ℕ → Bool) (draws : ℕ → Bool) (t : ℚ) :
    (SendTelemetry st request noise false fwd draws t).forward_targets =
      retryLoop fwd 0 3 := rfl

/-- C1 counterexample: when every forwarding attempt fails and the packet
was not lost, the transmit step attempts the primary receiver channel
exactly 3 times and never attempts a secondary channel, so the claimed
total of 4 attempts with one secondary attempt is false. -/
theorem transmit_secondary_counterexample :
    (SendTelemetry initProcState telVel60 (fun _ => 0) false (fun _ => false)
        (fun _ => false) 0).forward_targets =
      ["localhost:50053", "localhost:50053", "localhost:50053"] ∧
    ¬ (((SendTelemetry initProcState telVel60 (fun _ => 0) false
          (fun _ => false) (fun _ => false) 0).forward_targets).length = 4 ∧
        "localhost:50054" ∈ (SendTelemetry initProcState telVel60 (fun _ => 0)
          false (fun _ => false) (fun _ => false) 0).forward_targets) := by
  constructor
  · rfl
  · rw [SendTelemetry_sent_targets]
    simp [retryLoop]

/-- C1 (corrected): when every attempt to deliver to the receiver fails,
the transmit step makes exactly 3 attempts, all on the primary channel
localhost:50053, and then drops the report without attempting any
secondary channel. -/
theorem transmit_retry_amended (st : ProcState) (request : TelemetryData)
    (noise : ℕ → ℚ) (fwd : ℕ → Bool) (draws : ℕ → Bool) (t : ℚ)
    (hfail : ∀ i, fwd i = false) :
    (SendTelemetry st request noise false fwd draws t).forward_targets =
      ["localhost:50053", "localhost:50053", "localhost:50053"] ∧
    "localhost:50054" ∉
      (SendTelemetry st request noise false fwd draws t).forward_targets := by
  have htargets : retryLoop fwd 0 3 =
      ["localhost:50053", "localhost:50053", "localhost:50053"] := by
    simp [retryLoop, hfail 0, hfail 1, hfail 2]
  rw [SendTelemetry_sent_targets, htargets]
  simp

/-- Witness for C1 at a concrete state, report and all-fail channel. -/
theorem transmit_retry_amended_witness :
    (SendTelemetry initProcState telVel60 (fun _ => 0) false (fun _ => false)
        (fun _ => false) 0).forward_targets =
      ["localhost:50053", "localhost:50053", "localhost:50053"] ∧
    "localhost:50054" ∉
      (SendTelemetry initProcState telVel60 (fun _ => 0) false
        (fun _ => false) (fun _ => false) 0).forward_targets :=
  transmit_retry_amended initProcState telVel60 (fun _ => 0) (fun _ => false)
    (fun _ => false) 0 (fun _ => rfl)

/-- C9 (confirmed): when the channel model reports packet loss the inbound
report is not forwarded to the receiver (no channel is attempted), and the
caller still receives an acknowledgement response that carries exactly the
generated commands, with an ACK status rather than an error; the embedded
SendTelemetry is a total function, matching the contract that no exception
reaches the telemetry source. -/
theorem packet_loss_ack_semantics (st : ProcState) (request : TelemetryData)
    (noise : ℕ → ℚ) (fwd : ℕ → Bool) (draws : ℕ → Bool) (t : ℚ) :
    (SendTelemetry st request noise true fwd draws t).forward_targets = [] ∧
    (SendTelemetry st request noise true fwd draws t).response.commands =
      (processTelemetry st request noise draws t).2.2.1 ∧
    (SendTelemetry st request noise true fwd draws t).response.status =
      (if (processTelemetry st request noise draws t).2.2.1 = [] then "ACK"
       else "ACK_WITH_COMMANDS") :=
  ⟨rfl, rfl, rfl⟩

/-- Helper: the state left by SendTelemetry is the one produced by the
processing stage, whether or not the packet was lost. -/
theorem SendTelemetry_state (st : ProcState) (request : TelemetryData)
    (noise : ℕ → ℚ) (loss : Bool) (fwd : ℕ → Bool) (draws : ℕ → Bool)
    (t : ℚ) :
    (SendTelemetry st request noise loss fwd draws t).state =
      (processTelemetry st request noise draws t).2.2.2 := by
  cases loss <;> rfl

/-- Helper: one processing step keeps the bandwidth mode inside
the set normal, low, critical. -/
theorem processTelemetry_bw (st : ProcState) (request : TelemetryData)
    (noise : ℕ → ℚ) (draws : ℕ → Bool) (t : ℚ)
    (hst : st.bandwidth_mode = "normal" ∨ st.bandwidth_mode = "low" ∨
      st.bandwidth_mode = "critical") :
    ((processTelemetry st request noise draws t).2.2.2).bandwidth_mode =
        "normal" ∨
      ((processTelemetry st request noise draws t).2.2.2).bandwidth_mode =
        "low" ∨
      ((processTelemetry st request noise draws t).2.2.2).bandwidth_mode =
        "critical" := by
  unfold processTelemetry
  dsimp only
  split_ifs <;> simp_all

/-- Helper: the bandwidth-mode invariant is preserved along any sequence
of SendTelemetry calls. -/
theorem runProcessor_bw (calls : List TelemetryCall) :
    ∀ st : ProcState,
      (st.bandwidth_mode = "normal" ∨ st.bandwidth_mode = "low" ∨
        st.bandwidth_mode = "critical") →
      ((runProcessor st calls).bandwidth_mode = "normal" ∨
        (runProcessor st calls).bandwidth_mode = "low" ∨
        (runProcessor st calls).bandwidth_mode = "critical") := by
  induction calls with
  | nil => intro st hst; simpa [runProcessor] using hst
  | cons c rest ih =>
    intro st hst
    have hstep : runProcessor st (c :: rest) =
        runProcessor (SendTelemetry st c.request c.noise c.loss c.fwd
          c.draws c.time).state rest := rfl
    rw [hstep]
    refine ih _ ?_
    rw [SendTelemetry_state]
    exact processTelemetry_bw st c.request c.noise c.draws c.time hst

/-- C10 (confirmed): after any sequence of SendTelemetry calls the
bandwidth mode is one of normal, low or critical; the "high" mode, whose
compression branch would transmit every present field, is never selected
by the pipeline. -/
theorem bandwidth_mode_invariant (calls : List TelemetryCall) (i : ℕ) :
    (runProcessor initProcState (calls.take i)).bandwidth_mode = "normal" ∨
    (runProcessor initProcState (calls.take i)).bandwidth_mode = "low" ∨
    (runProcessor initProcState (calls.take i)).bandwidth_mode =
      "critical" :=
  runProcessor_bw (calls.take i) initProcState (Or.inl rfl)

end DeepSpaceSim
